import Mathlib

/-!
Verification development for the operations toolbox server.

Shallow embedding of the job store, dispatcher cancellation path, worker
entry point, probe-template reservation, toolkit registry deletion, zip
bundle extraction, local login throttling, and refresh-token rotation,
translated from the Python sources under src/.

Modelling conventions:
* Redis hashes become association lists keyed by strings (`RedisKV`).
* Wall-clock timestamps (`datetime.now(timezone.utc)`) become `Nat`
  instants threaded through the operations as an explicit `now` argument.
* `uuid4()` identifiers are taken as explicit arguments.
* Python dict records for jobs are complete after `create_job`, so the
  `_normalise` helper (which only fills absent keys with `setdefault`) is
  the identity on every record our model stores; we therefore model
  records with all fields present.
* Exceptions become `Except` results.
-/

namespace RedisKV

/-- `HSET key field value` on an association list: replace the binding of
the field if present, otherwise append it. -/
def hset {α : Type} : List (String × α) → String → α → List (String × α)
  | [], k, v => [(k, v)]
  | (k', v') :: rest, k, v =>
    if k' = k then (k, v) :: rest else (k', v') :: hset rest k v

/-- `HGET key field` on an association list. -/
def hget {α : Type} (s : List (String × α)) (k : String) : Option α :=
  (s.find? (fun p => p.fst = k)).map Prod.snd

/-- `HDEL key field` on an association list. -/
def hdel {α : Type} (s : List (String × α)) (k : String) : List (String × α) :=
  s.filter (fun p => p.fst ≠ k)

theorem hget_hset_self {α : Type} (s : List (String × α)) (k : String) (v : α) :
    hget (hset s k v) k = some v := by
  induction s with
  | nil => simp [hget, hset, List.find?]
  | cons p rest ih =>
    by_cases h : p.fst = k
    · simp [hset, h, hget, List.find?]
    · simpa [hset, h, hget, List.find?] using ih

theorem hget_hset_other {α : Type} (s : List (String × α)) (k k' : String) (v : α)
    (h : k' ≠ k) : hget (hset s k v) k' = hget s k' := by
  induction s with
  | nil =>
    simp [hget, hset, List.find?, Ne.symm h]
  | cons p rest ih =>
    simp only [hset]
    by_cases hp : p.fst = k
    · subst hp
      simp [hget, List.find?, Ne.symm h]
    · simp only [if_neg hp, hget, List.find?]
      by_cases hp' : p.fst = k'
      · simp [hp']
      · simp only [hp', decide_eq_false, Bool.false_eq_true]
        simpa [hget, List.find?, hp'] using ih

theorem hget_hdel_self {α : Type} (s : List (String × α)) (k : String) :
    hget (hdel s k) k = none := by
  induction s with
  | nil => simp [hget, hdel]
  | cons p rest ih =>
    simp only [hdel, List.filter_cons] at ih ⊢
    by_cases h : p.fst = k
    · simpa [h] using ih
    · simp [h, hget, List.find?, ih]

end RedisKV

/-! ## Job records

Model of the job dictionaries produced by `create_job`
(src/toolkit_runtime/jobs.py and src/backend/app/services/jobs.py). -/

/-- One entry of the `logs` list: `{"ts": _now(), "message": msg}`. -/
structure LogEntry where
  ts : Nat
  message : String
deriving Repr, DecidableEq

/-- A job record with every field present (see `_normalise`). The JSON
`payload` is opaque to the store, modelled as a `String`. -/
structure Job where
  id : String
  toolkit : String
  module : String
  operation : String
  type : String
  payload : String
  status : String
  progress : Int
  logs : List LogEntry
  result : Option String
  error : Option String
  celery_task_id : Option String
  created_at : Nat
  updated_at : Nat
deriving Repr, DecidableEq

/-- The Redis hash `{prefix}:jobs`: job id → record. -/
abbrev JobStoreState := List (String × Job)

namespace ToolkitRuntimeJobs

/-! Model of src/toolkit_runtime/jobs.py. -/

/-- `TERMINAL_STATUSES = {"succeeded", "failed", "cancelled"}`. -/
def TERMINAL_STATUSES : List String := ["succeeded", "failed", "cancelled"]

/-- `create_job(toolkit, operation, payload)`; the generated `uuid4` id and
the `_now()` timestamp are explicit arguments. -/
def create_job (job_id : String) (now : Nat) (toolkit operation payload : String)
    (s : JobStoreState) : Job × JobStoreState :=
  let job : Job :=
    { id := job_id
      toolkit := toolkit
      module := toolkit
      operation := operation
      type := toolkit ++ "." ++ operation
      payload := payload
      status := "queued"
      progress := 0
      logs := []
      result := none
      error := none
      celery_task_id := none
      created_at := now
      updated_at := now }
  (job, RedisKV.hset s job_id job)

/-- `save_job(job, update_timestamp=True)`: stamp `updated_at` unless the
caller opts out, then `HSET` the record under `job["id"]`. Returns the
(mutated) job together with the store. -/
def save_job (now : Nat) (job : Job) (s : JobStoreState)
    (update_timestamp : Bool := true) : Job × JobStoreState :=
  let job := if update_timestamp then { job with updated_at := now } else job
  (job, RedisKV.hset s job.id job)

/-- `get_job(job_id)`: `HGET`, `None` when absent. `_normalise` is the
identity on the complete records this model stores. -/
def get_job (s : JobStoreState) (job_id : String) : Option Job :=
  RedisKV.hget s job_id

/-- `append_log(job, message)`: append `{ts, message}` and save. -/
def append_log (now : Nat) (job : Job) (message : String)
    (s : JobStoreState) : Job × JobStoreState :=
  let job := { job with logs := job.logs ++ [⟨now, message⟩] }
  save_job now job s

/-- `mark_cancelled(job, message=None)`: set status `cancelled`
(`setdefault("progress", 0)` is a no-op on complete records), then
append the log message if given, else just save. -/
def mark_cancelled (now : Nat) (job : Job) (message : Option String)
    (s : JobStoreState) : Job × JobStoreState :=
  let job := { job with status := "cancelled" }
  match message with
  | some msg => append_log now job msg s
  | none => save_job now job s

/-- `mark_cancelling(job, message=None)`: set status `cancelling`, then
append the log message if given, else just save. -/
def mark_cancelling (now : Nat) (job : Job) (message : Option String)
    (s : JobStoreState) : Job × JobStoreState :=
  let job := { job with status := "cancelling" }
  match message with
  | some msg => append_log now job msg s
  | none => save_job now job s

/-- `attach_celery_task(job, task_id)`. -/
def attach_celery_task (now : Nat) (job : Job) (task_id : String)
    (s : JobStoreState) : Job × JobStoreState :=
  let job := { job with celery_task_id := some task_id }
  save_job now job s

/-- Stable insertion of a job into a list sorted by `created_at`
descending; equal keys keep the incoming job in front, matching the
stability of Python `list.sort(..., reverse=True)`. -/
def insertByCreatedDesc (j : Job) : List Job → List Job
  | [] => [j]
  | x :: xs =>
    if x.created_at ≤ j.created_at then j :: x :: xs
    else x :: insertByCreatedDesc j xs

/-- `jobs.sort(key=lambda job: job.get("created_at", ""), reverse=True)`
as a stable sort. -/
def sortByCreatedDesc : List Job → List Job
  | [] => []
  | x :: xs => insertByCreatedDesc x (sortByCreatedDesc xs)

/-- The truthiness-guarded lowering of a filter argument:
`{m.lower() for m in xs} if xs else None`. -/
def lowerFilter : Option (List String) → Option (List String)
  | some l => if l.isEmpty then none else some (l.map String.toLower)
  | none => none

/-- The body of the filtering loop of `list_jobs`: a job is kept when it
passes every present filter (each `continue` models a failed test). -/
def keepJob (tf mf sf : Option (List String)) (job : Job) : Bool :=
  (match tf with
   | some fs => fs.contains job.toolkit.toLower
   | none => true) &&
  (match mf with
   | some fs => fs.contains job.module.toLower
   | none => true) &&
  (match sf with
   | some fs => fs.contains job.status.toLower
   | none => true)

/-- `list_jobs(limit, offset, toolkits, modules, statuses)`:
full scan of the hash values, case-insensitive filter on `toolkit`,
`module` and `status`, sort by `created_at` descending, `total` is the
post-filter count before pagination. -/
def list_jobs (s : JobStoreState) (limit : Option Nat) (offset : Nat)
    (toolkits modules statuses : Option (List String)) :
    List Job × Nat :=
  let jobs := s.map Prod.snd
  let tf := lowerFilter toolkits
  let mf := lowerFilter modules
  let sf := lowerFilter statuses
  let jobs :=
    if tf.isSome || mf.isSome || sf.isSome then
      jobs.filter (keepJob tf mf sf)
    else jobs
  let jobs := sortByCreatedDesc jobs
  let total := jobs.length
  let jobs := jobs.drop offset
  let jobs := match limit with
    | some l => jobs.take l
    | none => jobs
  (jobs, total)

end ToolkitRuntimeJobs

namespace BackendJobs

/-! Model of src/backend/app/services/jobs.py. Its record-level helpers
coincide with src/toolkit_runtime/jobs.py except that `save_job` always
stamps `updated_at`. -/

/-- `TERMINAL_STATUSES = {"succeeded", "failed", "cancelled"}`. -/
def TERMINAL_STATUSES : List String := ["succeeded", "failed", "cancelled"]

/-- `create_job(toolkit, operation, payload)` of the backend service. -/
def create_job (job_id : String) (now : Nat) (toolkit operation payload : String)
    (s : JobStoreState) : Job × JobStoreState :=
  let job : Job :=
    { id := job_id
      toolkit := toolkit
      module := toolkit
      operation := operation
      type := toolkit ++ "." ++ operation
      payload := payload
      status := "queued"
      progress := 0
      logs := []
      result := none
      error := none
      celery_task_id := none
      created_at := now
      updated_at := now }
  (job, RedisKV.hset s job_id job)

/-- `save_job(job)`: always stamps `updated_at`. -/
def save_job (now : Nat) (job : Job) (s : JobStoreState) : Job × JobStoreState :=
  let job := { job with updated_at := now }
  (job, RedisKV.hset s job.id job)

/-- `get_job(job_id)`. -/
def get_job (s : JobStoreState) (job_id : String) : Option Job :=
  RedisKV.hget s job_id

/-- `append_log(job, message)`. -/
def append_log (now : Nat) (job : Job) (message : String)
    (s : JobStoreState) : Job × JobStoreState :=
  let job := { job with logs := job.logs ++ [⟨now, message⟩] }
  save_job now job s

/-- `mark_cancelled(job, message=None)`. -/
def mark_cancelled (now : Nat) (job : Job) (message : Option String)
    (s : JobStoreState) : Job × JobStoreState :=
  let job := { job with status := "cancelled" }
  match message with
  | some msg => append_log now job msg s
  | none => save_job now job s

/-- `mark_cancelling(job, message=None)`. -/
def mark_cancelling (now : Nat) (job : Job) (message : Option String)
    (s : JobStoreState) : Job × JobStoreState :=
  let job := { job with status := "cancelling" }
  match message with
  | some msg => append_log now job msg s
  | none => save_job now job s

end BackendJobs

namespace ToolkitRuntimeWorker

/-! Model of `cancel_job` from src/toolkit_runtime/worker.py; the variant
in src/backend/app/worker_client.py (lines 30-49) performs the same
sequence of job-store operations. -/

/-- Outcome of `cancel_job`: the returned job (if any), the store after
the call, and whether `celery_app.control.revoke(task_id, terminate=True)`
was requested from the broker. -/
structure CancelResult where
  job : Option Job
  store : JobStoreState
  revoked : Bool
deriving Repr, DecidableEq

/-- `cancel_job(job_id)` (src/toolkit_runtime/worker.py lines 91-111). -/
def cancel_job (now : Nat) (s : JobStoreState) (job_id : String) : CancelResult :=
  match ToolkitRuntimeJobs.get_job s job_id with
  | none => ⟨none, s, false⟩
  | some job =>
    if job.status ∈ ToolkitRuntimeJobs.TERMINAL_STATUSES then
      ⟨some job, s, false⟩
    else
      let previous_status := job.status
      let (job, s) := ToolkitRuntimeJobs.mark_cancelling now job
        (some "Cancellation requested") s
      let revoked := job.celery_task_id.isSome
      if previous_status = "queued" then
        let (job, s) := ToolkitRuntimeJobs.mark_cancelled now job
          (some "Job cancelled before execution") s
        ⟨some job, s, revoked⟩
      else
        let (job, s) := ToolkitRuntimeJobs.append_log now job
          "Cancellation signal sent to worker" s
        ⟨some job, s, revoked⟩

end ToolkitRuntimeWorker

namespace WorkerTasks

/-! Model of `run_job` from src/backend/worker/tasks.py, which uses the
backend job store (`from app.services import jobs as job_store`). -/

/-- A handler either returns an updated job or raises (message of the
exception). -/
abbrev JobHandler := Job → Except String Job

/-- `run_job(job_id)` (src/backend/worker/tasks.py lines 48-77). The
handler resolved by `_ensure_handler` for the job's type is passed as
`handler` (`none` models "no handler registered", including after the
lazy-load attempt). The Python function returns `None`; the model
returns the store after the final `save_job`. -/
def run_job (now : Nat) (handler : Option JobHandler) (s : JobStoreState)
    (job_id : String) : JobStoreState :=
  match BackendJobs.get_job s job_id with
  | none => s
  | some job =>
    if job.status = "cancelling" then
      (BackendJobs.mark_cancelled now job
        (some "Cancellation acknowledged before execution") s).2
    else if job.status = "cancelled" then s
    else
      let job := { job with status := "running", progress := 0 }
      let (job, s) := BackendJobs.save_job now job s
      let (job, s) := BackendJobs.append_log now job "Job execution started" s
      match handler with
      | none =>
        -- raise ValueError(f"No handler registered for job type {job_type}")
        let msg := "No handler registered for job type " ++ job.type
        let job := { job with status := "failed" }
        let (job, s) := BackendJobs.append_log now job ("Error: " ++ msg) s
        let job := { job with error := some msg }
        (BackendJobs.save_job now job s).2
      | some h =>
        match h job with
        | .ok job => (BackendJobs.save_job now job s).2
        | .error msg =>
          let job := { job with status := "failed" }
          let (job, s) := BackendJobs.append_log now job ("Error: " ++ msg) s
          let job := { job with error := some msg }
          (BackendJobs.save_job now job s).2

end WorkerTasks

namespace LatencySleuth

/-! Model of the probe-template storage
(src/toolkits/latency_sleuth/backend/storage.py). -/

/-- A validated `ProbeTemplate` (src/toolkits/latency_sleuth/backend/models.py).
Pydantic enforces `interval_seconds: int = Field(default=300, ge=30, le=3600)`,
so every stored template satisfies `30 ≤ interval_seconds ≤ 3600`.
Datetimes are modelled as `Nat` instants; fields not consulted by the
reservation protocol (`name`, `url`, `method`, `sla_ms`,
`notification_rules`, `tags`) are carried opaquely. -/
structure ProbeTemplate where
  id : String
  name : String
  url : String
  method : String
  sla_ms : Nat
  interval_seconds : Nat
  next_run_at : Option Nat
  created_at : Nat
  updated_at : Nat
deriving Repr, DecidableEq

/-- The Redis hash `{prefix}:toolkits:latency_sleuth:templates`. -/
abbrev TemplateStore := List (String × ProbeTemplate)

/-- `_compute_next_run(template, base_time)`: `None` when
`interval_seconds <= 0`, else `base_time + interval_seconds`. -/
def compute_next_run (t : ProbeTemplate) (base_time : Nat) : Option Nat :=
  if t.interval_seconds ≤ 0 then none
  else some (base_time + t.interval_seconds)

/-- `reserve_template_for_run(template_id, now)` (storage.py lines
117-147). The WATCH/MULTI/EXEC retry loop serialises the body; the model
is that body run once without interference: absent id or
not-yet-due template → `(None, unchanged store)`; otherwise write the
record with `next_run_at := _compute_next_run(...)` and
`updated_at := now` and return it. `template.next_run_at or
template.created_at` becomes `getD` (`created_at` is never `None`). -/
def reserve_template_for_run (store : TemplateStore) (template_id : String)
    (now : Nat) : Option ProbeTemplate × TemplateStore :=
  match RedisKV.hget store template_id with
  | none => (none, store)
  | some t =>
    let current_next := t.next_run_at.getD t.created_at
    if now < current_next then (none, store)
    else
      let t' := { t with next_run_at := compute_next_run t now, updated_at := now }
      (some t', RedisKV.hset store template_id t')

end LatencySleuth

namespace Registry

/-! Model of the toolkit registry (src/backend/app/toolkits/registry.py):
the SQL `toolkits` table, the `toolkit_removals` tombstone table, and the
Redis registry hash mirror. Only the columns consulted by
`delete_toolkit` / `is_toolkit_removed` are modelled beyond identity. -/

/-- A row of the SQL `toolkits` table. -/
structure ToolkitRow where
  slug : String
  name : String
  enabled : Bool
  origin : String
deriving Repr, DecidableEq

/-- Registry state: SQL `toolkits` table (keyed by slug), SQL
`toolkit_removals` table (slug → `removed_at`), Redis registry hash. -/
structure RegState where
  toolkits : List (String × ToolkitRow)
  removals : List (String × Nat)
  cache : List (String × ToolkitRow)
deriving Repr, DecidableEq

/-- `_record_removal(session, slug)`: update `removed_at` if a tombstone
exists, else insert one. -/
def record_removal (now : Nat) (slug : String) (removals : List (String × Nat)) :
    List (String × Nat) :=
  RedisKV.hset removals slug now

/-- `_clear_removal(session, slug)`: delete any tombstone for the slug. -/
def clear_removal (slug : String) (removals : List (String × Nat)) :
    List (String × Nat) :=
  removals.filter (fun p => p.fst ≠ slug)

/-- `delete_toolkit(slug)` (registry.py lines 311-326). A raised
`ValueError` (modelled as `.error`) aborts the SQL transaction before any
mutation, so no new state accompanies the error. -/
def delete_toolkit (now : Nat) (st : RegState) (slug : String) :
    Except String (Bool × RegState) :=
  match RedisKV.hget st.toolkits slug with
  | none => .ok (false, st)
  | some model =>
    if model.origin = "builtin" then
      .error "Cannot delete builtin toolkit"
    else
      let was_bundled := model.origin = "bundled"
      let toolkits := st.toolkits.filter (fun p => p.fst ≠ slug)
      let removals :=
        if was_bundled then record_removal now slug st.removals
        else clear_removal slug st.removals
      let cache := RedisKV.hdel st.cache slug
      .ok (true, { toolkits := toolkits, removals := removals, cache := cache })

/-- `is_toolkit_removed(slug)` (registry.py lines 344-346). -/
def is_toolkit_removed (st : RegState) (slug : String) : Bool :=
  (RedisKV.hget st.removals slug).isSome

end Registry

namespace ZipExtract

/-! Model of `_extract_zip_bundle` and `_resolve_safe_member_path`
(src/backend/app/routes/toolkits.py lines 318-385 and 661-700). The
on-disk extraction directory is modelled as the list of written files
(path components and byte count); `shutil.rmtree` on failure empties it. -/

/-- An `HTTPException(status_code, detail)`. -/
structure HExc where
  status : Nat
  detail : String
deriving Repr, DecidableEq

/-- A `zipfile.ZipInfo` member: its name, its mode bits
(`external_attr >> 16`), the declared uncompressed size (`file_size`),
and the number of bytes the decompression stream actually yields. -/
structure ZipMember where
  filename : String
  mode : Nat
  file_size : Nat
  actual_size : Nat
deriving Repr, DecidableEq

/-- `UPLOAD_WRITE_CHUNK_SIZE = 1024 * 1024`. -/
def UPLOAD_WRITE_CHUNK_SIZE : Nat := 1024 * 1024

/-- `_format_limit_mb(value)`. -/
def format_limit_mb (value : Nat) : Nat :=
  max 1 ((value + (1024 * 1024 - 1)) / (1024 * 1024))

/-- The 413 raised when one entry exceeds `toolkit_bundle_max_file_bytes`
(apostrophes written as `\x27`). -/
def fileLimitExc (name : String) (max_file_bytes : Nat) : HExc :=
  ⟨413, "Toolkit file \x27" ++ name ++ "\x27 exceeds the " ++
    toString (format_limit_mb max_file_bytes) ++ "MB limit"⟩

/-- The 413 raised when the aggregate size exceeds
`toolkit_bundle_max_bytes`. -/
def bundleLimitExc (max_total_bytes : Nat) : HExc :=
  ⟨413, "Toolkit bundle expands beyond the " ++
    toString (format_limit_mb max_total_bytes) ++ "MB limit"⟩

/-- `raw_name.replace("\\", "/")`: the pattern is the single backslash
character, so the replacement is character-wise. -/
def backslashToSlash (cs : List Char) : List Char :=
  cs.map (fun c => if c = '\\' then '/' else c)

/-- `normalized.endswith("/")` on the character list. -/
def endsWithSlash (cs : List Char) : Bool :=
  match cs.reverse with
  | [] => false
  | c :: _ => c = '/'

/-- `normalized.rstrip("/")` on the character list. -/
def dropTrailingSlashes (cs : List Char) : List Char :=
  (cs.reverse.dropWhile (fun c => c = '/')).reverse

/-- `ntpath.splitdrive(p)[0]` is non-empty (a drive letter such as `c:`
or a UNC `//host/share` prefix); backslashes were already replaced by
slashes. -/
def has_drive (cs : List Char) : Bool :=
  (match cs with
   | _ :: c :: _ => c = ':'
   | _ => false) ||
  (match cs with
   | '/' :: '/' :: _ => true
   | _ => false)

/-- `str.split("/")` on the character list (the segments of
`PurePosixPath(normalized).parts` before the empty/dot filtering). -/
def splitOnSlash : List Char → List (List Char)
  | [] => [[]]
  | c :: rest =>
    match splitOnSlash rest with
    | [] => [[]]
    | seg :: segs => if c = '/' then [] :: seg :: segs else (c :: seg) :: segs

/-- `_resolve_safe_member_path(member, ...)` on the member name:
`.error` for drive letters, absolute paths, or `..` segments;
`.ok none` when the name normalises to the extraction root (the caller
skips the entry); `.ok (some parts)` the validated relative path. The
string operations are performed on the character list so that the model
evaluates by reduction. `Path.resolve` symlink chasing is not modelled:
the model's filesystem contains no symlinks (symlinked members are
rejected before writing). -/
def resolve_safe_member_path (raw_name : String) : Except HExc (Option (List String)) :=
  let normalized := backslashToSlash raw_name.data
  let normalized :=
    if endsWithSlash normalized then dropTrailingSlashes normalized
    else normalized
  if has_drive normalized then
    .error ⟨400, "Invalid zip entry path: " ++ raw_name⟩
  else
    match normalized with
    | '/' :: _ => .error ⟨400, "Invalid zip entry path: " ++ raw_name⟩
    | _ =>
      let parts := (splitOnSlash normalized).filter
        (fun part => !part.isEmpty && part ≠ ['.'])
      if parts.contains ['.', '.'] then
        .error ⟨400, "Invalid zip entry path: " ++ raw_name⟩
      else if parts.isEmpty then
        .ok none
      else
        .ok (some (parts.map (fun part => String.mk part)))

/-- The sequence of chunk sizes `zf.open(member).read(CHUNK)` yields for a
stream of `total` bytes: full chunks followed by the remainder. -/
def chunk_sizes (total : Nat) : List Nat :=
  List.replicate (total / UPLOAD_WRITE_CHUNK_SIZE) UPLOAD_WRITE_CHUNK_SIZE ++
    (if total % UPLOAD_WRITE_CHUNK_SIZE = 0 then []
     else [total % UPLOAD_WRITE_CHUNK_SIZE])

/-- The per-entry copy loop: accumulate `bytes_written`, raising the
per-file 413 as soon as it exceeds `max_file_bytes`. -/
def write_chunks (max_file_bytes : Nat) (e : HExc) :
    List Nat → Nat → Except HExc Nat
  | [], bytes_written => .ok bytes_written
  | chunk :: rest, bytes_written =>
    let bytes_written := bytes_written + chunk
    if max_file_bytes < bytes_written then .error e
    else write_chunks max_file_bytes e rest bytes_written

/-- `stat.S_ISLNK(mode)`: `(mode & 0o170000) == 0o120000`. -/
def is_symlink_mode (mode : Nat) : Bool :=
  mode &&& 0o170000 = 0o120000

/-- `member.is_dir()`: the member name ends in `/`. -/
def member_is_dir (m : ZipMember) : Bool :=
  endsWithSlash m.filename.data

/-- The member loop of `_extract_zip_bundle`: `total` is
`total_uncompressed`, `files` the files written so far (in order). -/
def extract_loop (max_total_bytes max_file_bytes : Nat) :
    List ZipMember → Nat → List (List String × Nat) →
    Except HExc (List (List String × Nat))
  | [], _total, files => .ok files
  | m :: rest, total, files =>
    match resolve_safe_member_path m.filename with
    | .error e => .error e
    | .ok none => extract_loop max_total_bytes max_file_bytes rest total files
    | .ok (some parts) =>
      if is_symlink_mode m.mode then
        .error ⟨400, "Toolkit bundle may not contain symbolic links"⟩
      else if member_is_dir m then
        -- target_path.mkdir(...): directories write no bytes
        extract_loop max_total_bytes max_file_bytes rest total files
      else if max_file_bytes < m.file_size then
        .error (fileLimitExc m.filename max_file_bytes)
      else
        let total := total + m.file_size
        if max_total_bytes < total then
          .error (bundleLimitExc max_total_bytes)
        else
          match write_chunks max_file_bytes (fileLimitExc m.filename max_file_bytes)
              (chunk_sizes m.actual_size) 0 with
          | .error e => .error e
          | .ok written =>
            extract_loop max_total_bytes max_file_bytes rest total
              (files ++ [(parts, written)])

/-- `_extract_zip_bundle(bundle_path, dirname)` over the archive's member
list: on any `HTTPException` the extraction directory is removed
(`shutil.rmtree`), so the resulting directory content is empty; on
success it holds the written files. -/
def extract_zip_bundle (max_total_bytes max_file_bytes : Nat)
    (members : List ZipMember) : Option HExc × List (List String × Nat) :=
  match extract_loop max_total_bytes max_file_bytes members 0 [] with
  | .ok files => (none, files)
  | .error e => (some e, [])

end ZipExtract

namespace LocalAuth

/-! Model of the throttling logic of `LocalAuthProvider`
(src/backend/app/security/providers/local.py). Only the two Redis keys
for one fixed throttle identifier are modelled; TTL values are stored
without the passage of time (every attempt of the analysed scenario
happens immediately). -/

/-- Provider throttle configuration (`max_failed_attempts`,
`failure_window_seconds`, `lockout_seconds`). -/
structure LocalConfig where
  max_failed_attempts : Nat
  failure_window_seconds : Nat
  lockout_seconds : Nat
deriving Repr, DecidableEq

/-- The throttle keys for one identifier: the failure counter with its
TTL (`none` models a key present without expiry, Redis TTL -1), and the
lockout key's TTL. An absent key is the outer `Option`'s `none`. -/
structure ThrottleState where
  failures : Option (Nat × Option Nat)
  lock : Option Nat
deriving Repr, DecidableEq

/-- The empty Redis state: neither key exists. -/
def initialThrottle : ThrottleState := ⟨none, none⟩

/-- `_remaining_lock_seconds`: 0 when the lock key is absent; otherwise
its TTL (our `setex`-written locks always carry a TTL, so the
`ttl < 0 → lockout_seconds` fallback is unreachable). -/
def remaining_lock_seconds (st : ThrottleState) : Nat :=
  match st.lock with
  | none => 0
  | some ttl => ttl

/-- `_register_failure` (local.py lines 39-91) given a non-empty
identifier: always audits `auth.login.failure`; `INCR` the counter,
setting the window TTL when the key has none; on reaching
`max_failed_attempts`, `SETEX` the lockout key, delete the counter and
audit `auth.login.throttled`. Returns (remaining lock seconds, state,
audit events). -/
def register_failure (cfg : LocalConfig) (st : ThrottleState) :
    Nat × ThrottleState × List String :=
  let events := ["auth.login.failure"]
  let count0 := match st.failures with
    | none => 0
    | some (n, _) => n
  let ttl0 : Option Nat := match st.failures with
    | none => none
    | some (_, t) => t
  let attempts := count0 + 1
  let ttl1 := match ttl0 with
    | none => some cfg.failure_window_seconds
    | some t => some t
  let st := { st with failures := some (attempts, ttl1) }
  if cfg.max_failed_attempts ≤ attempts then
    let st : ThrottleState :=
      { failures := none, lock := some cfg.lockout_seconds }
    (remaining_lock_seconds st, st, events ++ ["auth.login.throttled"])
  else
    (0, st, events)

/-- The HTTP outcome of one `complete(...)` call. -/
inductive LoginOutcome where
  | http401
  | http429 (retryAfter : Nat)
  | success
deriving Repr, DecidableEq

/-- `complete(request, session)` (local.py lines 97-167) on the
wrong-password path (user found, `verify_password` false): check the
lockout first (429 with `Retry-After`), otherwise register the failure
and raise 429 when it locked, else 401 "Invalid username or password". -/
def complete_wrong_password (cfg : LocalConfig) (st : ThrottleState) :
    LoginOutcome × ThrottleState × List String :=
  let remaining_lock := remaining_lock_seconds st
  if 0 < remaining_lock then
    (.http429 remaining_lock, st, [])
  else
    let (remaining, st, events) := register_failure cfg st
    if 0 < remaining then (.http429 remaining, st, events)
    else (.http401, st, events)

/-- Run `n` consecutive wrong-password attempts, returning each attempt's
outcome and audit events together with the final state. -/
def attempts_trace (cfg : LocalConfig) :
    Nat → ThrottleState → List (LoginOutcome × List String) × ThrottleState
  | 0, st => ([], st)
  | n + 1, st =>
    let (outcome, st, events) := complete_wrong_password cfg st
    let (trace, stFin) := attempts_trace cfg n st
    ((outcome, events) :: trace, stFin)

/-- The claim's throttle configuration
`{max_attempts: 3, window_seconds: 300, lockout_seconds: 900}`. -/
def claimConfig : LocalConfig := ⟨3, 300, 900⟩

end LocalAuth

namespace Auth

/-! Model of `AuthService.refresh_tokens`
(src/backend/app/services/auth.py lines 144-183) with
`SessionService.get_by_token_hash` (src/backend/app/services/sessions.py)
over the `auth_sessions` table. `hash_token` (SHA-256 hex digest,
src/backend/app/security/tokens.py lines 128-129) and `decode_token`
(JWT signature verification) are cryptographic library primitives and
are passed in as function parameters. -/

/-- The claims of a decoded refresh JWT that `refresh_tokens` consults. -/
structure TokenPayload where
  sub : String
  sid : String
  provider : Option String
  typ : String
  token_use : Option String
deriving Repr, DecidableEq

/-- A row of the `auth_sessions` table. -/
structure AuthSessionRow where
  id : String
  user_id : String
  refresh_token_hash : String
  expires_at : Nat
  revoked_at : Option Nat
  client_info : Option String
deriving Repr, DecidableEq

/-- A user row with the fields `refresh_tokens` consults. -/
structure UserRow where
  id : String
  username : String
  display_name : Option String
  is_active : Bool
  roles : List String
deriving Repr, DecidableEq

/-- The output of `create_token_bundle` that `refresh_tokens` uses: the
freshly minted refresh token and its expiry (`jti` is a fresh `uuid4`,
so the bundle is an argument of the model). -/
structure TokenBundle where
  access_token : String
  refresh_token : String
  refresh_expires_at : Nat
deriving Repr, DecidableEq

/-- `SessionService.get_by_token_hash`: `SELECT ... WHERE
refresh_token_hash == token_hash` with `scalar_one_or_none` (the table
is assumed to hold at most one match). -/
def get_by_token_hash (sessions : List AuthSessionRow) (token_hash : String) :
    Option AuthSessionRow :=
  sessions.find? (fun r => r.refresh_token_hash = token_hash)

/-- ORM mutation of the looked-up row: replace the first row whose hash
is `token_hash` by `row`. -/
def update_session_row (sessions : List AuthSessionRow) (token_hash : String)
    (row : AuthSessionRow) : List AuthSessionRow :=
  match sessions with
  | [] => []
  | r :: rest =>
    if r.refresh_token_hash = token_hash then row :: rest
    else r :: update_session_row rest token_hash row

/-- `is_token_expired(expires_at)`: `expires_at <= now`. -/
def is_token_expired (expires_at now : Nat) : Bool :=
  expires_at ≤ now

/-- `AuthService.refresh_tokens(refresh_token)`. `hashToken` models
`hash_token` (SHA-256), `decodeToken` models `decode_token` (`none` is a
raised `TokenError`, surfaced as 401). `newBundle` is the bundle
`create_token_bundle` mints for this call. Errors carry the 401 detail
string. On success the session row is rotated:
`refresh_token_hash := hash_token(bundle.refresh_token)`,
`expires_at := bundle.refresh_expires_at`. -/
def refresh_tokens (hashToken : String → String)
    (decodeToken : String → Option TokenPayload)
    (users : List UserRow) (newBundle : TokenBundle) (now : Nat)
    (sessions : List AuthSessionRow) (refresh_token : String) :
    Except String (TokenBundle × List AuthSessionRow) :=
  match decodeToken refresh_token with
  | none => .error "Token validation failed"
  | some payload =>
    if payload.token_use ≠ some "refresh" then .error "Refresh token invalid"
    else if payload.typ ≠ "refresh" then .error "Refresh token invalid"
    else
      let token_hash := hashToken refresh_token
      match get_by_token_hash sessions token_hash with
      | none => .error "Refresh token not recognized"
      | some record =>
        if record.revoked_at.isSome then .error "Refresh token not recognized"
        else if is_token_expired record.expires_at now then
          .error "Refresh token expired"
        else
          match users.find? (fun u => u.id = payload.sub) with
          | none => .error "User inactive"
          | some user =>
            if ¬ user.is_active then .error "User inactive"
            else
              let record' := { record with
                refresh_token_hash := hashToken newBundle.refresh_token,
                expires_at := newBundle.refresh_expires_at }
              .ok (newBundle, update_session_row sessions token_hash record')

end Auth

/-! ## Claim theorems -/

/-- C10: for a template id not present in the templates hash,
`reserve_template_for_run` returns `None` and leaves the templates hash
entirely unchanged. -/
theorem reserve_absent_template_frame (store : LatencySleuth.TemplateStore)
    (template_id : String) (now : Nat)
    (h : RedisKV.hget store template_id = none) :
    LatencySleuth.reserve_template_for_run store template_id now = (none, store) := by
  simp [LatencySleuth.reserve_template_for_run, h]

/-- A template used by the C10 witness. -/
def c10_template : LatencySleuth.ProbeTemplate :=
  { id := "t1", name := "checkout", url := "https://example.test/health"
    method := "GET", sla_ms := 250, interval_seconds := 300
    next_run_at := some 90, created_at := 10, updated_at := 10 }

/-- C10 witness: a concrete one-template store and an absent id. -/
theorem reserve_absent_template_frame_witness :
    RedisKV.hget [("t1", c10_template)] "t2" = none ∧
    LatencySleuth.reserve_template_for_run [("t1", c10_template)] "t2" 100 =
      (none, [("t1", c10_template)]) := by
  refine ⟨by decide, reserve_absent_template_frame _ _ _ (by decide)⟩

/-- C4: for a template present in the store (pydantic guarantees
`interval_seconds ≥ 30 > 0`), a reservation at `now` aborts with `None`
and no write when the effective next run time (`next_run_at`, or
`created_at` when it is null) lies strictly after `now`; otherwise it
succeeds and the reserved template (also the one written back) carries
`next_run_at = now + interval_seconds`. -/
theorem reserve_template_spec (store : LatencySleuth.TemplateStore)
    (template_id : String) (now : Nat) (t : LatencySleuth.ProbeTemplate)
    (hget : RedisKV.hget store template_id = some t)
    (hpos : 0 < t.interval_seconds) :
    (now < t.next_run_at.getD t.created_at →
      LatencySleuth.reserve_template_for_run store template_id now = (none, store)) ∧
    (t.next_run_at.getD t.created_at ≤ now →
      LatencySleuth.reserve_template_for_run store template_id now =
        (some { t with next_run_at := some (now + t.interval_seconds), updated_at := now },
         RedisKV.hset store template_id
           { t with next_run_at := some (now + t.interval_seconds), updated_at := now })) := by
  constructor
  · intro hdue
    simp [LatencySleuth.reserve_template_for_run, hget, hdue]
  · intro hdue
    simp [LatencySleuth.reserve_template_for_run, hget, Nat.not_lt.mpr hdue,
      LatencySleuth.compute_next_run, Nat.not_le.mpr hpos, Nat.pos_iff_ne_zero.mp hpos]

/-- A template used by the C4 witness. -/
def c4_template : LatencySleuth.ProbeTemplate :=
  { id := "t1", name := "checkout", url := "https://example.test/health"
    method := "GET", sla_ms := 250, interval_seconds := 300
    next_run_at := some 100, created_at := 10, updated_at := 10 }

/-- C4 witness: at `now = 100` the template is due and the reservation
advances `next_run_at` to `100 + 300`; at `now = 99` it aborts. -/
theorem reserve_template_spec_witness :
    LatencySleuth.reserve_template_for_run [("t1", c4_template)] "t1" 100 =
      (some { c4_template with next_run_at := some 400, updated_at := 100 },
       [("t1", { c4_template with next_run_at := some 400, updated_at := 100 })]) ∧
    LatencySleuth.reserve_template_for_run [("t1", c4_template)] "t1" 99 =
      (none, [("t1", c4_template)]) := by
  constructor
  · exact (reserve_template_spec [("t1", c4_template)] "t1" 100 c4_template
      (by decide) (by decide)).2 (by decide)
  · exact (reserve_template_spec [("t1", c4_template)] "t1" 99 c4_template
      (by decide) (by decide)).1 (by decide)

/-- C7: for an existing toolkit record, `delete_toolkit` raises (deleting
nothing — the `ValueError` aborts the transaction before any mutation)
when the origin is `builtin`; for origin `bundled` it deletes the record
and records a `ToolkitRemoval` tombstone, so `is_toolkit_removed` is true
afterwards; for any other origin it deletes the record and clears any
tombstone. -/
theorem delete_toolkit_spec (st : Registry.RegState) (slug : String)
    (now : Nat) (row : Registry.ToolkitRow)
    (h : RedisKV.hget st.toolkits slug = some row) :
    (row.origin = "builtin" →
      Registry.delete_toolkit now st slug = .error "Cannot delete builtin toolkit") ∧
    (row.origin = "bundled" → ∃ st',
      Registry.delete_toolkit now st slug = .ok (true, st') ∧
      RedisKV.hget st'.toolkits slug = none ∧
      Registry.is_toolkit_removed st' slug = true) ∧
    (row.origin ≠ "builtin" → row.origin ≠ "bundled" → ∃ st',
      Registry.delete_toolkit now st slug = .ok (true, st') ∧
      RedisKV.hget st'.toolkits slug = none ∧
      Registry.is_toolkit_removed st' slug = false) := by
  refine ⟨fun hb => ?_, fun hb => ?_, fun hnb hnbd => ?_⟩
  · simp [Registry.delete_toolkit, h, hb]
  · refine ⟨⟨st.toolkits.filter (fun p => p.fst ≠ slug),
        Registry.record_removal now slug st.removals,
        RedisKV.hdel st.cache slug⟩, ?_, ?_, ?_⟩
    · simp [Registry.delete_toolkit, h, hb]
    · exact RedisKV.hget_hdel_self st.toolkits slug
    · simp [Registry.is_toolkit_removed, Registry.record_removal, RedisKV.hget_hset_self]
  · refine ⟨⟨st.toolkits.filter (fun p => p.fst ≠ slug),
        Registry.clear_removal slug st.removals,
        RedisKV.hdel st.cache slug⟩, ?_, ?_, ?_⟩
    · simp [Registry.delete_toolkit, h, hnb, hnbd]
    · exact RedisKV.hget_hdel_self st.toolkits slug
    · have hd : RedisKV.hget (RedisKV.hdel st.removals slug) slug = none :=
        RedisKV.hget_hdel_self st.removals slug
      simp [Registry.is_toolkit_removed, Registry.clear_removal]
      simpa [RedisKV.hdel] using hd

/-- Concrete registry state for the C7 witness: one builtin, one bundled
and one uploaded toolkit, no tombstones, warm cache. -/
def c7_state : Registry.RegState :=
  { toolkits :=
      [("zabbix", ⟨"zabbix", "Zabbix", true, "builtin"⟩),
       ("latency-sleuth", ⟨"latency-sleuth", "Latency Sleuth", true, "bundled"⟩),
       ("custom-kit", ⟨"custom-kit", "Custom Kit", false, "uploaded"⟩)]
    removals := []
    cache :=
      [("zabbix", ⟨"zabbix", "Zabbix", true, "builtin"⟩),
       ("latency-sleuth", ⟨"latency-sleuth", "Latency Sleuth", true, "bundled"⟩),
       ("custom-kit", ⟨"custom-kit", "Custom Kit", false, "uploaded"⟩)] }

/-- C7 witness: the three origin cases on a concrete registry state. -/
theorem delete_toolkit_spec_witness :
    Registry.delete_toolkit 7 c7_state "zabbix" = .error "Cannot delete builtin toolkit" ∧
    (∃ st', Registry.delete_toolkit 7 c7_state "latency-sleuth" = .ok (true, st') ∧
      RedisKV.hget st'.toolkits "latency-sleuth" = none ∧
      Registry.is_toolkit_removed st' "latency-sleuth" = true) ∧
    (∃ st', Registry.delete_toolkit 7 c7_state "custom-kit" = .ok (true, st') ∧
      RedisKV.hget st'.toolkits "custom-kit" = none ∧
      Registry.is_toolkit_removed st' "custom-kit" = false) := by
  refine ⟨?_, ?_, ?_⟩
  · exact (delete_toolkit_spec c7_state "zabbix" 7 ⟨"zabbix", "Zabbix", true, "builtin"⟩
      (by decide)).1 (by decide)
  · exact (delete_toolkit_spec c7_state "latency-sleuth" 7
      ⟨"latency-sleuth", "Latency Sleuth", true, "bundled"⟩ (by decide)).2.1 (by decide)
  · exact (delete_toolkit_spec c7_state "custom-kit" 7
      ⟨"custom-kit", "Custom Kit", false, "uploaded"⟩ (by decide)).2.2
      (by decide) (by decide)

/-- C9: in both job-store implementations `create_job` returns a record
whose `module` field equals its `toolkit` field, and on a store whose
jobs all satisfy `module = toolkit` (as every record created through the
public enqueue path does), listing jobs filtered by `module` is the same
as listing them filtered by `toolkit`. -/
theorem create_job_module_eq_toolkit :
    (∀ jid now tk op pl s,
      ((ToolkitRuntimeJobs.create_job jid now tk op pl s).1).module =
        ((ToolkitRuntimeJobs.create_job jid now tk op pl s).1).toolkit) ∧
    (∀ jid now tk op pl s,
      ((BackendJobs.create_job jid now tk op pl s).1).module =
        ((BackendJobs.create_job jid now tk op pl s).1).toolkit) ∧
    (∀ (s : JobStoreState) (m : String) (limit : Option Nat) (offset : Nat),
      (∀ p ∈ s, (Prod.snd p).module = (Prod.snd p).toolkit) →
      ToolkitRuntimeJobs.list_jobs s limit offset (some [m]) none none =
        ToolkitRuntimeJobs.list_jobs s limit offset none (some [m]) none) := by
  refine ⟨fun _ _ _ _ _ _ => rfl, fun _ _ _ _ _ _ => rfl, ?_⟩
  intro s m limit offset hmt
  have hfil :
      (s.map Prod.snd).filter
          (ToolkitRuntimeJobs.keepJob (some [m.toLower]) none none) =
        (s.map Prod.snd).filter
          (ToolkitRuntimeJobs.keepJob none (some [m.toLower]) none) := by
    apply List.filter_congr
    intro x hx
    obtain ⟨p, hp, rfl⟩ := List.mem_map.mp hx
    simp [ToolkitRuntimeJobs.keepJob, hmt p hp]
  simp [ToolkitRuntimeJobs.list_jobs, ToolkitRuntimeJobs.lowerFilter, hfil]

/-- Two jobs used by the C9 witness. -/
def c9_jobs : JobStoreState :=
  [("j1", { id := "j1", toolkit := "zabbix", module := "zabbix"
            operation := "bulk_add_hosts", type := "zabbix.bulk_add_hosts"
            payload := "{}", status := "queued", progress := 0, logs := []
            result := none, error := none, celery_task_id := none
            created_at := 1, updated_at := 1 }),
   ("j2", { id := "j2", toolkit := "latency-sleuth", module := "latency-sleuth"
            operation := "run_probe", type := "latency-sleuth.run_probe"
            payload := "{}", status := "running", progress := 40, logs := []
            result := none, error := none, celery_task_id := some "t2"
            created_at := 2, updated_at := 3 })]

/-- C9 witness: on a concrete store the `module` filter and the `toolkit`
filter agree, and a concretely created job has `module = toolkit`. -/
theorem create_job_module_eq_toolkit_witness :
    ((ToolkitRuntimeJobs.create_job "j9" 5 "zabbix" "bulk_add_hosts" "{}" []).1).module =
      ((ToolkitRuntimeJobs.create_job "j9" 5 "zabbix" "bulk_add_hosts" "{}" []).1).toolkit ∧
    ToolkitRuntimeJobs.list_jobs c9_jobs (some 10) 0 (some ["Zabbix"]) none none =
      ToolkitRuntimeJobs.list_jobs c9_jobs (some 10) 0 none (some ["Zabbix"]) none := by
  refine ⟨create_job_module_eq_toolkit.1 "j9" 5 "zabbix" "bulk_add_hosts" "{}" [], ?_⟩
  exact create_job_module_eq_toolkit.2.2 c9_jobs "Zabbix" (some 10) 0 (by decide)

/-- The intermediate record `mark_cancelling(job, "Cancellation requested")`
writes for a job cancelled by `cancel_job`. -/
def cancellingMid (now : Nat) (job : Job) : Job :=
  { job with
    status := "cancelling"
    logs := job.logs ++ [⟨now, "Cancellation requested"⟩]
    updated_at := now }

/-- The final record `cancel_job` leaves for a previously `queued` job. -/
def cancelledFinal (now : Nat) (job : Job) : Job :=
  { job with
    status := "cancelled"
    logs := job.logs ++
      [⟨now, "Cancellation requested"⟩, ⟨now, "Job cancelled before execution"⟩]
    updated_at := now }

/-- C3: `cancel_job` returns `nil` for an absent id; returns a terminal
job unchanged (no store write); and for a `queued` job marks it
`cancelling` with log "Cancellation requested" and then immediately
transitions it to terminal `cancelled` with log "Job cancelled before
execution" — the transition happens entirely inside the dispatcher-side
call, with no worker involvement (the broker revoke flag merely records
the advisory `revoke` request). -/
theorem cancel_job_spec (now : Nat) (s : JobStoreState) (jid : String) :
    (ToolkitRuntimeJobs.get_job s jid = none →
      ToolkitRuntimeWorker.cancel_job now s jid = ⟨none, s, false⟩) ∧
    (∀ job, ToolkitRuntimeJobs.get_job s jid = some job →
      job.status ∈ ToolkitRuntimeJobs.TERMINAL_STATUSES →
      ToolkitRuntimeWorker.cancel_job now s jid = ⟨some job, s, false⟩) ∧
    (∀ job, ToolkitRuntimeJobs.get_job s jid = some job →
      job.status = "queued" → job.id = jid →
      ∃ jfin s',
        ToolkitRuntimeWorker.cancel_job now s jid =
          ⟨some jfin, s', job.celery_task_id.isSome⟩ ∧
        jfin.status = "cancelled" ∧
        jfin.logs = job.logs ++
          [⟨now, "Cancellation requested"⟩, ⟨now, "Job cancelled before execution"⟩] ∧
        jfin.result = job.result ∧
        jfin.error = job.error ∧
        ToolkitRuntimeJobs.get_job s' jid = some jfin) := by
  refine ⟨fun h => ?_, fun job h hterm => ?_, fun job h hq hid => ?_⟩
  · simp [ToolkitRuntimeWorker.cancel_job, h]
  · simp [ToolkitRuntimeWorker.cancel_job, h, hterm]
  · have hnt : job.status ∉ ToolkitRuntimeJobs.TERMINAL_STATUSES := by
      simp [ToolkitRuntimeJobs.TERMINAL_STATUSES, hq]
    subst hid
    have hcalc : ToolkitRuntimeWorker.cancel_job now s job.id =
        ⟨some (cancelledFinal now job),
          RedisKV.hset (RedisKV.hset s job.id (cancellingMid now job)) job.id
            (cancelledFinal now job),
          job.celery_task_id.isSome⟩ := by
      simp [ToolkitRuntimeWorker.cancel_job, h, hq, cancelledFinal, cancellingMid,
        ToolkitRuntimeJobs.TERMINAL_STATUSES,
        ToolkitRuntimeJobs.mark_cancelling, ToolkitRuntimeJobs.mark_cancelled,
        ToolkitRuntimeJobs.append_log, ToolkitRuntimeJobs.save_job]
    refine ⟨cancelledFinal now job, _, hcalc, rfl, rfl, rfl, rfl, ?_⟩
    exact RedisKV.hget_hset_self _ _ _

/-- A queued job used by the C3 witness. -/
def c3_queued : Job :=
  { id := "j1", toolkit := "zabbix", module := "zabbix"
    operation := "bulk_add_hosts", type := "zabbix.bulk_add_hosts"
    payload := "{}", status := "queued", progress := 0, logs := []
    result := none, error := none, celery_task_id := some "task-1"
    created_at := 1, updated_at := 1 }

/-- A succeeded job used by the C3 witness. -/
def c3_done : Job :=
  { id := "j2", toolkit := "zabbix", module := "zabbix"
    operation := "bulk_add_hosts", type := "zabbix.bulk_add_hosts"
    payload := "{}", status := "succeeded", progress := 100, logs := []
    result := some "ok", error := none, celery_task_id := some "task-2"
    created_at := 1, updated_at := 2 }

/-- C3 witness: the three branches of `cancel_job` on a concrete store. -/
theorem cancel_job_spec_witness :
    ToolkitRuntimeWorker.cancel_job 5 [("j1", c3_queued), ("j2", c3_done)] "nope" =
      ⟨none, [("j1", c3_queued), ("j2", c3_done)], false⟩ ∧
    ToolkitRuntimeWorker.cancel_job 5 [("j1", c3_queued), ("j2", c3_done)] "j2" =
      ⟨some c3_done, [("j1", c3_queued), ("j2", c3_done)], false⟩ ∧
    (∃ jfin s',
      ToolkitRuntimeWorker.cancel_job 5 [("j1", c3_queued), ("j2", c3_done)] "j1" =
        ⟨some jfin, s', true⟩ ∧
      jfin.status = "cancelled" ∧
      jfin.logs = [⟨5, "Cancellation requested"⟩, ⟨5, "Job cancelled before execution"⟩] ∧
      ToolkitRuntimeJobs.get_job s' "j1" = some jfin) := by
  refine ⟨?_, ?_, ?_⟩
  · exact (cancel_job_spec 5 [("j1", c3_queued), ("j2", c3_done)] "nope").1 (by decide)
  · exact (cancel_job_spec 5 [("j1", c3_queued), ("j2", c3_done)] "j2").2.1 c3_done
      (by decide) (by decide)
  · obtain ⟨jfin, s', heq, hst, hlogs, _, _, hget⟩ :=
      (cancel_job_spec 5 [("j1", c3_queued), ("j2", c3_done)] "j1").2.2 c3_queued
        (by decide) (by decide) (by decide)
    exact ⟨jfin, s', by simpa [c3_queued] using heq, hst, by simpa [c3_queued] using hlogs, hget⟩

/-- A terminal (succeeded) job used by the C1 counterexample. -/
def c1_succeeded : Job :=
  { id := "j1", toolkit := "zabbix", module := "zabbix"
    operation := "bulk_add_hosts", type := "zabbix.bulk_add_hosts"
    payload := "{}", status := "succeeded", progress := 100, logs := []
    result := some "ok", error := none, celery_task_id := some "task-1"
    created_at := 1, updated_at := 2 }

/-- C1 counterexample: `mark_cancelled` invoked on a job whose status is
the terminal `succeeded` overwrites its status with `cancelled` (and
persists the overwrite), so not every job-store operation leaves a
terminal job's status unchanged. -/
theorem terminal_not_immutable_counterexample :
    c1_succeeded.status = "succeeded" ∧
    ((ToolkitRuntimeJobs.mark_cancelled 3 c1_succeeded none
        [("j1", c1_succeeded)]).1).status = "cancelled" ∧
    ToolkitRuntimeJobs.get_job
        (ToolkitRuntimeJobs.mark_cancelled 3 c1_succeeded none
          [("j1", c1_succeeded)]).2 "j1" ≠ some c1_succeeded := by
  refine ⟨rfl, rfl, ?_⟩
  decide

/-- C1 (amended): only the guarded operations preserve terminal jobs:
`cancel_job` returns a terminal job unchanged without touching the
store; `run_job` on a `cancelled` job leaves the store unchanged; and
`append_log` never changes `status`, `result` or `error`. The unguarded
mutators (`save_job`, `mark_cancelling`, `mark_cancelled`, and `run_job`
on `succeeded`/`failed` jobs) can overwrite those fields. -/
theorem terminal_guards (now : Nat) (s : JobStoreState) (jid : String) :
    (∀ job, ToolkitRuntimeJobs.get_job s jid = some job →
      job.status ∈ ToolkitRuntimeJobs.TERMINAL_STATUSES →
      ToolkitRuntimeWorker.cancel_job now s jid = ⟨some job, s, false⟩) ∧
    (∀ (handler : Option WorkerTasks.JobHandler) job,
      BackendJobs.get_job s jid = some job → job.status = "cancelled" →
      WorkerTasks.run_job now handler s jid = s) ∧
    (∀ job msg,
      ((ToolkitRuntimeJobs.append_log now job msg s).1).status = job.status ∧
      ((ToolkitRuntimeJobs.append_log now job msg s).1).result = job.result ∧
      ((ToolkitRuntimeJobs.append_log now job msg s).1).error = job.error) := by
  refine ⟨fun job h hterm => ?_, fun handler job h hc => ?_, fun job msg => ⟨rfl, rfl, rfl⟩⟩
  · simp [ToolkitRuntimeWorker.cancel_job, h, hterm]
  · simp [WorkerTasks.run_job, h, hc]

/-- C1 witness for the amended theorem: a concrete terminal job is left
unchanged by `cancel_job` and by `run_job`, and `append_log` preserves
its status, result and error. -/
theorem terminal_guards_witness :
    ToolkitRuntimeWorker.cancel_job 9 [("j1", c1_succeeded)] "j1" =
      ⟨some c1_succeeded, [("j1", c1_succeeded)], false⟩ ∧
    WorkerTasks.run_job 9 none
      [("jc", { c1_succeeded with id := "jc", status := "cancelled" })] "jc" =
      [("jc", { c1_succeeded with id := "jc", status := "cancelled" })] ∧
    ((ToolkitRuntimeJobs.append_log 9 c1_succeeded "note" [("j1", c1_succeeded)]).1).status =
      c1_succeeded.status := by
  refine ⟨?_, ?_, ?_⟩
  · exact (terminal_guards 9 [("j1", c1_succeeded)] "j1").1 c1_succeeded (by decide) (by decide)
  · exact (terminal_guards 9
      [("jc", { c1_succeeded with id := "jc", status := "cancelled" })] "jc").2.1 none
      { c1_succeeded with id := "jc", status := "cancelled" } (by decide) (by decide)
  · exact ((terminal_guards 9 [("j1", c1_succeeded)] "j1").2.2 c1_succeeded "note").1

/-- The queued job of the repository's own
`test_run_job_defaults_to_success_status` (src/backend/tests/test_worker_tasks.py). -/
def c2_job : Job :=
  { id := "job-1", toolkit := "demo", module := "demo"
    operation := "run", type := "demo.run"
    payload := "{}", status := "queued", progress := 0, logs := []
    result := none, error := none, celery_task_id := none
    created_at := 0, updated_at := 0 }

/-- C2: running the handler that returns its job unchanged (the
repository's own test `test_run_job_defaults_to_success_status` expects
`status == "succeeded"` and `progress == 100` here) leaves the stored
job at `status = "running"`, `progress = 0`: `run_job` has no
default-to-succeeded step after the handler returns. -/
theorem run_job_no_success_default :
    (BackendJobs.get_job
        (WorkerTasks.run_job 1 (some (fun job => .ok job)) [("job-1", c2_job)] "job-1")
        "job-1").map Job.status = some "running" ∧
    (BackendJobs.get_job
        (WorkerTasks.run_job 1 (some (fun job => .ok job)) [("job-1", c2_job)] "job-1")
        "job-1").map Job.progress = some 0 := by
  constructor <;> rfl

/-- C6 counterexample: with `{max_attempts: 3, window_seconds: 300,
lockout_seconds: 900}`, the *third* consecutive wrong-password attempt —
the one whose counter reaches `max_attempts` — already returns 429 (with
`Retry-After 900`), not 401 as the claim requires of the first three
attempts; and no `auth.login.lockout` audit event is ever emitted (the
code's event is `auth.login.throttled`). -/
theorem local_throttle_counterexample :
    ((LocalAuth.attempts_trace LocalAuth.claimConfig 4 LocalAuth.initialThrottle).1.map
        Prod.fst) =
      [.http401, .http401, .http429 900, .http429 900] ∧
    (LocalAuth.LoginOutcome.http429 900) ≠ LocalAuth.LoginOutcome.http401 ∧
    "auth.login.lockout" ∉
      ((LocalAuth.attempts_trace LocalAuth.claimConfig 4 LocalAuth.initialThrottle).1.map
        Prod.snd).flatten := by
  refine ⟨by decide, by decide, by decide⟩

/-- C6 (amended): with `{max_attempts: 3, window_seconds: 300,
lockout_seconds: 900}`, the first two wrong-password attempts return
401; the third — whose counter reaches `max_attempts` — deletes the
attempts key, sets the lockout key with TTL 900, emits exactly one
`auth.login.throttled` audit event, and returns 429 with `Retry-After
900`; the fourth attempt, while locked, returns 429 with `Retry-After
900` and emits no audit event. -/
theorem local_throttle_amended :
    ((LocalAuth.attempts_trace LocalAuth.claimConfig 4 LocalAuth.initialThrottle).1.map
        Prod.fst) =
      [.http401, .http401, .http429 900, .http429 900] ∧
    ((LocalAuth.attempts_trace LocalAuth.claimConfig 4 LocalAuth.initialThrottle).1.map
        Prod.snd) =
      [["auth.login.failure"], ["auth.login.failure"],
       ["auth.login.failure", "auth.login.throttled"], []] ∧
    (LocalAuth.attempts_trace LocalAuth.claimConfig 4 LocalAuth.initialThrottle).2.failures =
      none ∧
    (LocalAuth.attempts_trace LocalAuth.claimConfig 4 LocalAuth.initialThrottle).2.lock =
      some 900 ∧
    (((LocalAuth.attempts_trace LocalAuth.claimConfig 4 LocalAuth.initialThrottle).1.map
        Prod.snd).flatten.count "auth.login.throttled") = 1 := by
  refine ⟨by decide, by decide, by decide, by decide, by decide⟩

/-- The chunked stream of `total` bytes yields `total` bytes in all. -/
theorem chunk_sizes_sum (total : Nat) :
    (ZipExtract.chunk_sizes total).sum = total := by
  unfold ZipExtract.chunk_sizes
  by_cases h : total % ZipExtract.UPLOAD_WRITE_CHUNK_SIZE = 0
  · simp only [h, if_pos, List.append_nil, List.sum_replicate, smul_eq_mul]
    simp only [ZipExtract.UPLOAD_WRITE_CHUNK_SIZE] at h ⊢
    omega
  · simp only [if_neg h, List.sum_append, List.sum_replicate, smul_eq_mul,
      List.sum_cons, List.sum_nil]
    simp only [ZipExtract.UPLOAD_WRITE_CHUNK_SIZE] at h ⊢
    omega

/-- The per-entry copy loop succeeds (writing all bytes) whenever the
bytes already written plus the incoming bytes stay within the cap. -/
theorem write_chunks_ok (max_file_bytes : Nat) (e : ZipExtract.HExc) :
    ∀ (chunks : List Nat) (acc : Nat), acc + chunks.sum ≤ max_file_bytes →
      ZipExtract.write_chunks max_file_bytes e chunks acc = .ok (acc + chunks.sum) := by
  intro chunks
  induction chunks with
  | nil => intro acc h; simp [ZipExtract.write_chunks]
  | cons c rest ih =>
    intro acc h
    simp only [List.sum_cons] at h ⊢
    have hle : ¬ max_file_bytes < acc + c := by omega
    have hrec := ih (acc + c) (by omega)
    simp only [ZipExtract.write_chunks, if_neg hle, hrec]
    congr 1
    omega

/-- C8: during zip extraction an entry whose uncompressed size equals
`toolkit_bundle_max_file_bytes` is extracted in full, while an entry one
byte over the limit is rejected with the per-file 413 and the partly
extracted directory is removed (its final content is empty). -/
theorem extract_zip_limits (max_total_bytes max_file_bytes : Nat)
    (m : ZipExtract.ZipMember) (parts : List String)
    (hres : ZipExtract.resolve_safe_member_path m.filename = .ok (some parts))
    (hlnk : ZipExtract.is_symlink_mode m.mode = false)
    (hdir : ZipExtract.member_is_dir m = false)
    (hmt : max_file_bytes ≤ max_total_bytes) :
    (m.file_size = max_file_bytes → m.actual_size = max_file_bytes →
      ZipExtract.extract_zip_bundle max_total_bytes max_file_bytes [m] =
        (none, [(parts, max_file_bytes)])) ∧
    (m.file_size = max_file_bytes + 1 →
      ZipExtract.extract_zip_bundle max_total_bytes max_file_bytes [m] =
        (some (ZipExtract.fileLimitExc m.filename max_file_bytes), [])) := by
  constructor
  · intro hfs has
    have hw := write_chunks_ok max_file_bytes
      (ZipExtract.fileLimitExc m.filename max_file_bytes)
      (ZipExtract.chunk_sizes m.actual_size) 0
      (by simp [chunk_sizes_sum, has])
    rw [has] at hw
    simp only [chunk_sizes_sum, Nat.zero_add] at hw
    simp [ZipExtract.extract_zip_bundle, ZipExtract.extract_loop, hres, hlnk, hdir,
      hfs, has, Nat.lt_irrefl, Nat.not_lt.mpr hmt, hw]
  · intro hfs
    simp [ZipExtract.extract_zip_bundle, ZipExtract.extract_loop, hres, hlnk, hdir, hfs]

deriving instance DecidableEq for Except

/-- C8 witness: with a 5-byte per-file cap and a 100-byte aggregate cap,
a 5-byte entry extracts in full and a 6-byte entry yields the per-file
413 with the extraction directory removed. -/
theorem extract_zip_limits_witness :
    ZipExtract.extract_zip_bundle 100 5 [⟨"payload.bin", 0, 5, 5⟩] =
      (none, [(["payload.bin"], 5)]) ∧
    ZipExtract.extract_zip_bundle 100 5 [⟨"payload.bin", 0, 6, 6⟩] =
      (some (ZipExtract.fileLimitExc "payload.bin" 5), []) := by
  constructor
  · exact (extract_zip_limits 100 5 ⟨"payload.bin", 0, 5, 5⟩ ["payload.bin"]
      (by decide) (by decide) (by decide) (by decide)).1 (by decide) (by decide)
  · exact (extract_zip_limits 100 5 ⟨"payload.bin", 0, 6, 6⟩ ["payload.bin"]
      (by decide) (by decide) (by decide) (by decide)).2 (by decide)

/-- If at most one session row carries `token_hash` and the replacement
row carries a different hash, no row with `token_hash` remains after the
rotation. -/
theorem get_by_token_hash_update_none (token_hash : String) (row : Auth.AuthSessionRow)
    (hrow : row.refresh_token_hash ≠ token_hash) :
    ∀ sessions : List Auth.AuthSessionRow,
      sessions.countP (fun r => r.refresh_token_hash = token_hash) ≤ 1 →
      Auth.get_by_token_hash (Auth.update_session_row sessions token_hash row) token_hash =
        none := by
  intro sessions
  induction sessions with
  | nil => intro _; simp [Auth.get_by_token_hash, Auth.update_session_row]
  | cons r rest ih =>
    intro hcount
    by_cases hr : r.refresh_token_hash = token_hash
    · have hzero : rest.countP (fun r => r.refresh_token_hash = token_hash) = 0 := by
        have := List.countP_cons_of_pos (p := fun r => r.refresh_token_hash = token_hash)
          (l := rest) (by simpa using hr)
        omega
      have hnone : rest.find? (fun r => r.refresh_token_hash = token_hash) = none := by
        rw [List.find?_eq_none]
        intro x hx
        have := List.countP_eq_zero.mp hzero x hx
        simpa using this
      simp [Auth.update_session_row, hr, Auth.get_by_token_hash, List.find?, hrow, hnone]
    · have hcount' : rest.countP (fun r => r.refresh_token_hash = token_hash) ≤ 1 := by
        have := List.countP_cons_of_neg (p := fun r => r.refresh_token_hash = token_hash)
          (l := rest) (by simpa using hr)
        omega
      have := ih hcount'
      simp only [Auth.update_session_row, if_neg hr]
      simpa [Auth.get_by_token_hash, List.find?, hr] using this

/-- When a row with `token_hash` exists, the replacement row is a member
of the rotated table. -/
theorem update_session_row_mem (token_hash : String) (row : Auth.AuthSessionRow) :
    ∀ sessions : List Auth.AuthSessionRow,
      (Auth.get_by_token_hash sessions token_hash).isSome →
      row ∈ Auth.update_session_row sessions token_hash row := by
  intro sessions
  induction sessions with
  | nil => intro h; simp [Auth.get_by_token_hash] at h
  | cons r rest ih =>
    intro h
    by_cases hr : r.refresh_token_hash = token_hash
    · simp [Auth.update_session_row, hr]
    · have h' : (Auth.get_by_token_hash rest token_hash).isSome := by
        simpa [Auth.get_by_token_hash, List.find?, hr] using h
      simp [Auth.update_session_row, hr]
      exact Or.inr (ih h')

/-- C5: a successful `/auth/refresh` exchange of refresh token `R1`
(decoded claims valid, session row found by `SHA-256(R1)`, not revoked,
not expired, user active) rotates the stored session's
`refresh_token_hash` to `SHA-256(R2)` where `R2` is the freshly minted
bundle's refresh token, and — provided the table held at most one row
for `SHA-256(R1)` and `SHA-256(R2) ≠ SHA-256(R1)` (hash collision
freedom) — any second refresh attempt presenting `R1` is rejected 401
"Refresh token not recognized". -/
theorem refresh_token_rotation (hashToken : String → String)
    (decodeToken : String → Option Auth.TokenPayload)
    (users : List Auth.UserRow) (newBundle : Auth.TokenBundle) (now : Nat)
    (sessions : List Auth.AuthSessionRow) (R1 : String)
    (payload : Auth.TokenPayload) (record : Auth.AuthSessionRow)
    (user : Auth.UserRow)
    (hdec : decodeToken R1 = some payload)
    (huse : payload.token_use = some "refresh")
    (htyp : payload.typ = "refresh")
    (hrec : Auth.get_by_token_hash sessions (hashToken R1) = some record)
    (hrev : record.revoked_at = none)
    (hexp : now < record.expires_at)
    (huser : users.find? (fun u => u.id = payload.sub) = some user)
    (hact : user.is_active = true)
    (huniq : sessions.countP (fun r => r.refresh_token_hash = hashToken R1) ≤ 1)
    (hne : hashToken newBundle.refresh_token ≠ hashToken R1) :
    Auth.refresh_tokens hashToken decodeToken users newBundle now sessions R1 =
      .ok (newBundle,
        Auth.update_session_row sessions (hashToken R1)
          { record with
            refresh_token_hash := hashToken newBundle.refresh_token
            expires_at := newBundle.refresh_expires_at }) ∧
    { record with
        refresh_token_hash := hashToken newBundle.refresh_token
        expires_at := newBundle.refresh_expires_at } ∈
      Auth.update_session_row sessions (hashToken R1)
        { record with
          refresh_token_hash := hashToken newBundle.refresh_token
          expires_at := newBundle.refresh_expires_at } ∧
    (∀ (users2 : List Auth.UserRow) (newBundle2 : Auth.TokenBundle) (now2 : Nat),
      Auth.refresh_tokens hashToken decodeToken users2 newBundle2 now2
          (Auth.update_session_row sessions (hashToken R1)
            { record with
              refresh_token_hash := hashToken newBundle.refresh_token
              expires_at := newBundle.refresh_expires_at })
          R1 =
        .error "Refresh token not recognized") := by
  have hnotexp : Auth.is_token_expired record.expires_at now = false := by
    simp [Auth.is_token_expired, Nat.not_le.mpr hexp]
  refine ⟨?_, ?_, ?_⟩
  · simp [Auth.refresh_tokens, hdec, huse, htyp, hrec, hrev, hnotexp, huser, hact]
  · exact update_session_row_mem (hashToken R1) _ sessions (by simp [hrec])
  · intro users2 newBundle2 now2
    have hnone := get_by_token_hash_update_none (hashToken R1)
      { record with
        refresh_token_hash := hashToken newBundle.refresh_token
        expires_at := newBundle.refresh_expires_at }
      (by simpa using hne) sessions huniq
    simp [Auth.refresh_tokens, hdec, huse, htyp, hnone]

/-- Concrete decoded claims for the C5 witness. -/
def c5_payload : Auth.TokenPayload :=
  ⟨"u1", "sid1", some "local", "refresh", some "refresh"⟩

/-- A stand-in for the SHA-256 hex digest in the C5 witness (injective
on the tokens involved). -/
def c5_hash (s : String) : String := "sha256:" ++ s

/-- A stand-in for JWT decoding in the C5 witness: only `R1` verifies. -/
def c5_decode (s : String) : Option Auth.TokenPayload :=
  if s = "R1" then some c5_payload else none

/-- The active user of the C5 witness. -/
def c5_user : Auth.UserRow := ⟨"u1", "alice", some "Alice", true, ["toolkit.user"]⟩

/-- The stored session of the C5 witness, keyed by the hash of `R1`. -/
def c5_session : Auth.AuthSessionRow := ⟨"s1", "u1", "sha256:R1", 100, none, none⟩

/-- The bundle minted during the C5 witness's first refresh. -/
def c5_bundle : Auth.TokenBundle := ⟨"A2", "R2", 200⟩

/-- The session row after rotation in the C5 witness. -/
def c5_rotated : Auth.AuthSessionRow := ⟨"s1", "u1", "sha256:R2", 200, none, none⟩

/-- C5 witness: a concrete refresh of `R1` rotates the stored hash to
the hash of `R2`, and replaying `R1` afterwards is rejected. -/
theorem refresh_token_rotation_witness :
    Auth.refresh_tokens c5_hash c5_decode [c5_user] c5_bundle 0 [c5_session] "R1" =
      .ok (c5_bundle, [c5_rotated]) ∧
    c5_rotated.refresh_token_hash = c5_hash c5_bundle.refresh_token ∧
    Auth.refresh_tokens c5_hash c5_decode [c5_user] c5_bundle 7 [c5_rotated] "R1" =
      .error "Refresh token not recognized" := by
  have h := refresh_token_rotation c5_hash c5_decode [c5_user] c5_bundle 0 [c5_session] "R1"
    c5_payload c5_session c5_user (by decide) (by decide) (by decide) (by decide)
    (by decide) (by decide) (by decide) (by decide) (by decide) (by decide)
  refine ⟨?_, by decide, ?_⟩
  · exact h.1
  · exact h.2.2 [c5_user] c5_bundle 7
